import Mathlib

/-!
Verification of the flow-agent-x command execution engine (container
executor and command domain model) against its natural-language
specification. The Go sources are shallowly embedded: the Docker client
is an oracle of outcomes, panic-based propagation (`util.PanicIfErr`)
becomes explicit error values threaded through each step, and the
mutable `DockerExecutor` receiver becomes an explicit state record.
-/

namespace FlowAgentX

/-! Section: the domain model (domain/cmd.go). -/

/-- Embeds `CmdTypeShell` from domain/cmd.go. -/
def CmdTypeShell : String := "SHELL"

/-- Embeds `CmdTypeKill` from domain/cmd.go (defined there as "SHELL"). -/
def CmdTypeKill : String := "SHELL"

/-- Embeds `CmdTypeClose` from domain/cmd.go (defined there as "SHELL"). -/
def CmdTypeClose : String := "SHELL"

/-- Embeds the `CmdStatus` string constants of domain/cmd.go as an
inductive type; the string value of each constructor is `statusValue`. -/
inductive CmdStatus
  | pending
  | running
  | success
  | skipped
  | exception
  | killed
  | timeout
deriving DecidableEq, Repr

/-- The string value of each `CmdStatus` constant in domain/cmd.go. -/
def statusValue : CmdStatus → String
  | .pending => "PENDING"
  | .running => "RUNNING"
  | .success => "SUCCESS"
  | .skipped => "SKIPPED"
  | .exception => "EXCEPTION"
  | .killed => "KILLED"
  | .timeout => "TIMEOUT"

/-- Embeds `CmdExitCodeUnknow` ("default exit code") from domain/cmd.go. -/
def CmdExitCodeUnknow : Int := -1

/-- Embeds `CmdExitCodeTimeOut` ("exit code for timeout") from domain/cmd.go. -/
def CmdExitCodeTimeOut : Int := -100

/-- Embeds `CmdExitCodeKilled` ("exit code for killed") from domain/cmd.go. -/
def CmdExitCodeKilled : Int := -1

/-- Embeds `CmdExitCodeSuccess` ("exit code for command executed
successfuly") from domain/cmd.go. -/
def CmdExitCodeSuccess : Int := 0

/-- Variables: insertion-ordered string-to-string mapping (domain
`Variables`, a Go map), embedded as an association list. -/
def Variables := List (String × String)
deriving DecidableEq, Repr

/-- Embeds the docker option of the input descriptor (`CmdIn.Docker`):
image, the two cleanup booleans, and the resume hint lives on CmdIn. -/
structure DockerOption where
  image : String := ""
  isDeleteContainer : Bool := false
  isStopContainer : Bool := false
deriving DecidableEq, Repr

/-- Embeds the fields of `CmdIn` used by the container executor. -/
structure CmdIn where
  id : String := ""
  flowId : String := ""
  containerId : String := ""
  envFilters : List String := []
  docker : DockerOption := {}
deriving DecidableEq, Repr

/-- Embeds `ExecutedCmd` (domain/cmd.go): terminal result record.
`output = none` models the zero (unset) `Output` map. -/
structure ExecutedCmd where
  status : CmdStatus := .pending
  code : Int := CmdExitCodeUnknow
  error : String := ""
  containerId : String := ""
  processId : Int := 0
  output : Option Variables := none
deriving DecidableEq, Repr

/-! Section: BaseExecutor status transitions.

The `BaseExecutor` source file is not part of the provided sources
(only the `DockerExecutor` and the domain package are); the status
transition helpers it defines are modelled from the specification. -/

/-- Modelled from the spec: the terminal ("finish") statuses are
Success, Exception, Killed, Timeout (spec state machine and glossary;
`BaseExecutor.IsFinishStatus` is not in the provided sources). -/
def IsFinishStatus (r : ExecutedCmd) : Bool :=
  r.status = CmdStatus.success || r.status = CmdStatus.exception ||
  r.status = CmdStatus.killed || r.status = CmdStatus.timeout

/-- Modelled from the spec: `BaseExecutor.toTimeOutStatus` (not in the
provided sources) records status Timeout with code -100. -/
def toTimeOutStatus (r : ExecutedCmd) : ExecutedCmd :=
  { r with status := .timeout, code := CmdExitCodeTimeOut }

/-- Modelled from the spec: `BaseExecutor.toKilledStatus` (not in the
provided sources) records status Killed with code -1. -/
def toKilledStatus (r : ExecutedCmd) : ExecutedCmd :=
  { r with status := .killed, code := CmdExitCodeKilled }

/-- Modelled from the spec: `BaseExecutor.toErrorStatus` (not in the
provided sources) records status Exception with the error's message
in the `error` field. -/
def toErrorStatus (r : ExecutedCmd) (msg : String) : ExecutedCmd :=
  { r with status := .exception, error := msg }

/-- Modelled from the spec: `BaseExecutor.toStartStatus` (not in the
provided sources): Pending to Running sets the process id. -/
def toStartStatus (r : ExecutedCmd) (pid : Int) : ExecutedCmd :=
  { r with status := .running, processId := pid }

/-- Modelled from the spec: `BaseExecutor.toFinishStatus` (not in the
provided sources): a normal exit records the interpreter's exit status
in `code`; exit 0 is Success, non-zero is Exception. -/
def toFinishStatus (exitCode : Int) (r : ExecutedCmd) : ExecutedCmd :=
  if exitCode = CmdExitCodeSuccess then
    { r with status := .success, code := exitCode }
  else
    { r with status := .exception, code := exitCode }

/-! Section: util helpers used by the Docker executor. -/

/-- Modelled from the spec: `util.IsEmptyString` (util sources are not
provided); tests a string for emptiness. -/
def IsEmptyString (v : String) : Bool := v = ""

/-- Modelled from the spec: `util.ParseString` (util sources are not
provided) interpolates `${...}` environment placeholders; on
placeholder-free strings such as flow ids it is the identity. -/
def ParseString (v : String) : String := v

/-- Modelled from the spec: `util.ParseStringWithSource` (util sources
are not provided) interpolates `${...}` placeholders against a variable
map; on placeholder-free strings it is the identity. -/
def ParseStringWithSource (v : String) (_vars : Variables) : String := v

/-- Go `filepath.Join` of two already-clean path segments. -/
def filepathJoin (a b : String) : String :=
  if b = "" then a else a ++ "/" ++ b

/-- Map update on the association-list embedding of `Variables`
(Go map assignment `vars[k] = v`). -/
def setVar (vars : Variables) (k v : String) : Variables :=
  (List.filter (fun kv => kv.1 != k) vars) ++ [(k, v)]

/-- Map lookup on the association-list embedding of `Variables`. -/
def lookupVar (vars : Variables) (k : String) : Option String :=
  (List.find? (fun kv => kv.1 == k) vars).map Prod.snd

/-! Section: Docker executor constants (executor docker source). -/

/-- Embeds `dockerWorkspace`. -/
def dockerWorkspace : String := "/ws"

/-- Embeds `dockerPluginDir`. -/
def dockerPluginDir : String := dockerWorkspace ++ "/.plugins"

/-- Embeds `dockerEnvFile`. -/
def dockerEnvFile : String := "/tmp/.env"

/-- Embeds `domain.VarAgentJobDir` (the `AGENT_JOB_DIR` variable name). -/
def VarAgentJobDir : String := "AGENT_JOB_DIR"

/-- Embeds `domain.VarAgentPluginDir` (the `AGENT_PLUGIN_DIR` name). -/
def VarAgentPluginDir : String := "AGENT_PLUGIN_DIR"

/-! Section: errors and contexts.

Go errors reaching the executor's recover block are either
`context.Canceled`, `context.DeadlineExceeded`, or any other error
(identified by its message). `util.PanicIfErr` panics on a non-nil
error; the panic is caught by `Start`'s deferred recover and routed
through `handleErrors`. In the embedding every step returns the
updated state together with an optional propagating error. -/

/-- A Go error value as seen by `DockerExecutor.handleErrors`. -/
inductive GoErr
  | canceled
  | deadlineExceeded
  | other (msg : String)
deriving DecidableEq, Repr

/-- The runtime context of the executor: the job-scoped cancellable
context, or `context.Background()` after the reset in `handleErrors`. -/
inductive Ctx
  | job
  | background
deriving DecidableEq, Repr

/-- Outcome of `cli.ContainerInspect`: the not-found error recognised
by `client.IsErrContainerNotFound`, any other error, or a successful
inspection carrying the container's `State.Status` string. -/
inductive InspectOutcome
  | notFound
  | failed (e : GoErr)
  | ok (status : String)
deriving DecidableEq, Repr

/-- Oracle for the Docker client: the outcome of each API call the
executor makes, indexed by its arguments where the executor's control
flow depends on them. -/
structure DockerCli where
  imagePull : String → Option GoErr
  containerInspect : String → InspectOutcome
  containerRestart : String → Nat → Option GoErr
  containerCreate : Except GoErr String
  containerStart : String → Option GoErr
  copyToContainer : Option GoErr
  execCreate : Except GoErr String
  execAttach : Option GoErr
  execInspectPid : Except GoErr Int
  execWait : Except GoErr Int
  copyFromContainer : String → Option Variables

/-- The mutable state of a `DockerExecutor` (receiver fields of the Go
struct plus ghost fields recording externally visible effects:
containers removed or stopped, whether the deferred cleanup ran, and
whether the channels were closed). -/
structure DockerState where
  inCmd : CmdIn := {}
  CmdResult : ExecutedCmd := {}
  containerId : String := ""
  containerConfigImage : String := ""
  workDir : String := ""
  vars : Variables := []
  pluginDir : String := ""
  ctx : Ctx := .job
  removed : List String := []
  stopped : List String := []
  cleanupRan : Bool := false
  channelsClosed : Bool := false
deriving DecidableEq, Repr

/-! Section: Docker executor operations. -/

/-- Embeds `initConfig` (the parts observable in the result and the
environment): the in-container work dir is the workspace joined with
the parsed flow id; `AGENT_JOB_DIR` and `AGENT_PLUGIN_DIR` are set, and
the container image is resolved with variable interpolation. -/
def initConfig (d : DockerState) : DockerState :=
  let workDir := filepathJoin dockerWorkspace (ParseString d.inCmd.flowId)
  let vars := setVar d.vars VarAgentJobDir workDir
  let vars := setVar vars VarAgentPluginDir dockerPluginDir
  { d with
    workDir := workDir
    vars := vars
    containerConfigImage := ParseStringWithSource d.inCmd.docker.image vars }

/-- Embeds the full-reference resolution in `pullImage`: start from
`docker.io/library/` + image and override to `docker.io/` + image when
the image name contains a slash. -/
def pullImageFullRef (image : String) : String :=
  let fullRef := "docker.io/library/" ++ image
  if image.contains '/' then "docker.io/" ++ image else fullRef

/-- Embeds `pullImage`: pull the resolved reference; a pull error
panics (propagates); the pull progress reader only feeds the log. -/
def pullImage (cli : DockerCli) (d : DockerState) :
    DockerState × Option GoErr :=
  match cli.imagePull (pullImageFullRef d.containerConfigImage) with
  | some e => (d, some e)
  | none => (d, none)

/-- Embeds `tryToResume`: resume only a non-empty hint that inspects to
status "exited"; restart it with a 5 second timeout; on restart success
adopt the id into the result; on restart failure force-remove the stale
container and report no resume. A not-found inspect error reports no
resume; any other inspect error panics (propagates). -/
def tryToResume (cli : DockerCli) (d : DockerState) :
    DockerState × Except GoErr Bool :=
  let cid := d.inCmd.containerId
  if IsEmptyString cid then (d, .ok false)
  else
    match cli.containerInspect cid with
    | .notFound => (d, .ok false)
    | .failed e => (d, .error e)
    | .ok status =>
      if status != "exited" then (d, .ok false)
      else
        match cli.containerRestart cid 5 with
        | none =>
          ({ d with
              containerId := cid
              CmdResult := { d.CmdResult with containerId := cid } },
            .ok true)
        | some _ =>
          ({ d with removed := cid :: d.removed }, .ok false)

/-- Embeds `startContainer`: resume if possible, else create a fresh
container (recording its id in the state and the result) and start it;
create/start errors panic (propagate). -/
def startContainer (cli : DockerCli) (d : DockerState) :
    DockerState × Option GoErr :=
  match tryToResume cli d with
  | (d1, .error e) => (d1, some e)
  | (d1, .ok true) => (d1, none)
  | (d1, .ok false) =>
    match cli.containerCreate with
    | .error e => (d1, some e)
    | .ok cid =>
      let d2 := { d1 with
        containerId := cid
        CmdResult := { d1.CmdResult with containerId := cid } }
      match cli.containerStart cid with
      | some e => (d2, some e)
      | none => (d2, none)

/-- Embeds `copyPlugins`: skip when the plugin dir is empty; otherwise
copy the tar stream into the container, panicking on error. -/
def copyPlugins (cli : DockerCli) (d : DockerState) :
    DockerState × Option GoErr :=
  if IsEmptyString d.pluginDir then (d, none)
  else
    match cli.copyToContainer with
    | some e => (d, some e)
    | none => (d, none)

/-- Embeds `runCmdInContainer`: create and attach an exec session
(errors panic); the script/log channel traffic is not observable in the
result and is not modelled. Returns the exec id. -/
def runCmdInContainer (cli : DockerCli) (d : DockerState) :
    DockerState × Except GoErr String :=
  match cli.execCreate with
  | .error e => (d, .error e)
  | .ok eid =>
    match cli.execAttach with
    | some e => (d, .error e)
    | none => (d, .ok eid)

/-- Embeds `waitForExit`: first inspect yields the pid (transition to
Running), then poll until not running and return the exit code; inspect
errors panic (propagate, e.g. on context cancellation). -/
def waitForExit (cli : DockerCli) (d : DockerState) (_eid : String) :
    DockerState × Except GoErr Int :=
  match cli.execInspectPid with
  | .error e => (d, .error e)
  | .ok pid =>
    let d1 := { d with CmdResult := toStartStatus d.CmdResult pid }
    match cli.execWait with
    | .error e => (d1, .error e)
    | .ok code => (d1, .ok code)

/-- Modelled from the spec: `readEnvFromReader` (executor util sources
are not provided) parses the env dump and keeps only keys starting with
some filter; an empty filter list discards nothing. -/
def readEnvFromReader (entries : Variables) (filters : List String) :
    Variables :=
  match filters with
  | [] => entries
  | _ => List.filter (fun kv => filters.any (fun f => f.isPrefixOf kv.1)) entries

/-- Embeds `exportEnv`: copy the env-dump file out of the container; on
any copy error, return silently leaving the result untouched; on
success record the filtered mapping in the result's output. -/
def exportEnv (cli : DockerCli) (d : DockerState) : DockerState :=
  match cli.copyFromContainer d.containerId with
  | none => d
  | some entries =>
    { d with CmdResult := { d.CmdResult with
        output := some (readEnvFromReader entries d.inCmd.envFilters) } }

/-- Embeds `cleanupContainer`: if `IsDeleteContainer` force-remove the
container (and return), else if `IsStopContainer` stop it; API errors
are only logged. The ghost flag `cleanupRan` records that the deferred
cleanup executed. -/
def cleanupContainer (d : DockerState) : DockerState :=
  let d1 := { d with cleanupRan := true }
  if d1.inCmd.docker.isDeleteContainer then
    { d1 with removed := d1.containerId :: d1.removed }
  else if d1.inCmd.docker.isStopContainer then
    { d1 with stopped := d1.containerId :: d1.stopped }
  else d1

/-- Modelled from the spec: `BaseExecutor.closeChannels` (not in the
provided sources) closes the log/out channels exactly once at the end
of `Start`'s deferred block. -/
def closeChannels (d : DockerState) : DockerState :=
  { d with channelsClosed := true }

/-- Embeds `handleErrors`: deadline exceeded records Timeout and resets
the context to background, returning no error; cancellation records
Killed with the same reset, returning no error; any other error records
Exception with the error's message and is returned to the caller. -/
def handleErrors (d : DockerState) (e : GoErr) :
    DockerState × Option GoErr :=
  match e with
  | .deadlineExceeded =>
    ({ d with CmdResult := toTimeOutStatus d.CmdResult, ctx := .background }, none)
  | .canceled =>
    ({ d with CmdResult := toKilledStatus d.CmdResult, ctx := .background }, none)
  | .other m =>
    ({ d with CmdResult := toErrorStatus d.CmdResult m }, some e)

/-- The terminal transition at the end of `Start`'s body: if the result
already holds a finish status, do nothing; otherwise apply the normal
exit transition with the collected exit code. -/
def finishTransition (exitCode : Int) (r : ExecutedCmd) : ExecutedCmd :=
  if IsFinishStatus r then r else toFinishStatus exitCode r

/-- The straight-line body of `Start` (everything outside the deferred
block): pull, start container, copy plugins, run the command, wait for
exit, export the environment, then the terminal transition. A panic at
any step aborts the rest of the body, carrying the state reached so
far. -/
def startBody (cli : DockerCli) (d : DockerState) :
    DockerState × Option GoErr :=
  match pullImage cli d with
  | (d1, some e) => (d1, some e)
  | (d1, none) =>
    match startContainer cli d1 with
    | (d2, some e) => (d2, some e)
    | (d2, none) =>
      match copyPlugins cli d2 with
      | (d3, some e) => (d3, some e)
      | (d3, none) =>
        match runCmdInContainer cli d3 with
        | (d4, .error e) => (d4, some e)
        | (d4, .ok eid) =>
          match waitForExit cli d4 eid with
          | (d5, .error e) => (d5, some e)
          | (d5, .ok exitCode) =>
            let d6 := exportEnv cli d5
            ({ d6 with CmdResult := finishTransition exitCode d6.CmdResult },
              none)

/-- Embeds `Start`: run the body; on a panic route the recovered error
through `handleErrors` (whose result is `Start`'s return value); then
— on every exit path, via the deferred block — clean up the container
(the client is non-nil after `Init`) and close the channels. -/
def Start (cli : DockerCli) (d : DockerState) :
    DockerState × Option GoErr :=
  match startBody cli d with
  | (d1, some e) =>
    let (d2, out) := handleErrors d1 e
    (closeChannels (cleanupContainer d2), out)
  | (d1, none) =>
    (closeChannels (cleanupContainer d1), none)

/-! Section: lookup lemmas for the Variables embedding. -/

/-- Finding a key among the entries filtered to exclude it fails. -/
theorem find?_filter_self_none (vars : Variables) (k : String) :
    List.find? (fun kv => kv.1 == k)
      (List.filter (fun kv => kv.1 != k) vars) = none := by
  rw [List.find?_eq_none]
  intro x hx
  have hne := (List.mem_filter.mp hx).2
  simp only [bne_iff_ne, ne_eq, decide_eq_true_eq] at hne
  simp [hne]

/-- Looking up the key just set yields the set value. -/
theorem lookupVar_setVar_self (vars : Variables) (k v : String) :
    lookupVar (setVar vars k v) k = some v := by
  unfold lookupVar setVar
  rw [List.find?_append, find?_filter_self_none]
  simp

/-- Setting a different key does not change a lookup. -/
theorem lookupVar_setVar_other (vars : Variables) (k k' v : String)
    (h : k' ≠ k) : lookupVar (setVar vars k v) k' = lookupVar vars k' := by
  have h' : k ≠ k' := fun hk => h hk.symm
  unfold lookupVar setVar
  rw [List.find?_append]
  have hsingle : List.find? (fun kv => kv.1 == k') [(k, v)] = none := by
    simp [List.find?_cons, beq_iff_eq, h']
  rw [hsingle, Option.or_none]
  have hfilter : List.find? (fun kv => kv.1 == k')
      (List.filter (fun kv => kv.1 != k) vars)
      = List.find? (fun kv => kv.1 == k') vars := by
    induction vars with
    | nil => simp
    | cons hd tl ih =>
      by_cases hh : hd.1 = k
      · have hne : (hd.1 == k') = false := by
          rw [hh]; exact beq_eq_false_iff_ne.mpr h'
        have hkk : (k == k') = false := beq_eq_false_iff_ne.mpr h'
        simp [List.filter_cons, hh, List.find?_cons, hne, hkk, ih]
      · have hbk : (hd.1 != k) = true := bne_iff_ne.mpr hh
        by_cases h2 : hd.1 = k'
        · have hb : (hd.1 == k') = true := beq_iff_eq.mpr h2
          simp [List.filter_cons, hbk, List.find?_cons, hb]
        · have hb : (hd.1 == k') = false := beq_eq_false_iff_ne.mpr h2
          simp [List.filter_cons, hbk, List.find?_cons, hb, ih]
  rw [hfilter]

/-! Section: small preservation lemmas about the deferred block. -/

/-- Closing the channels does not touch the result record. -/
theorem closeChannels_CmdResult (d : DockerState) :
    (closeChannels d).CmdResult = d.CmdResult := rfl

/-- Closing the channels does not touch the context. -/
theorem closeChannels_ctx (d : DockerState) : (closeChannels d).ctx = d.ctx := rfl

/-- Container cleanup does not touch the result record. -/
theorem cleanupContainer_CmdResult (d : DockerState) :
    (cleanupContainer d).CmdResult = d.CmdResult := by
  unfold cleanupContainer
  dsimp only
  split_ifs <;> rfl

/-- Container cleanup does not touch the context. -/
theorem cleanupContainer_ctx (d : DockerState) :
    (cleanupContainer d).ctx = d.ctx := by
  unfold cleanupContainer
  dsimp only
  split_ifs <;> rfl

/-- Container cleanup always records that it ran. -/
theorem cleanupContainer_ran (d : DockerState) :
    (cleanupContainer d).cleanupRan = true := by
  unfold cleanupContainer
  dsimp only
  split_ifs <;> rfl

/-- Whatever the body and the recovered error do, `Start`'s final state
is the deferred block applied to some intermediate state, paired with
the recovered return value. -/
theorem Start_shape (cli : DockerCli) (d : DockerState) :
    ∃ d2 out, Start cli d = (closeChannels (cleanupContainer d2), out) := by
  unfold Start
  rcases hsb : startBody cli d with ⟨d1, pe⟩
  cases pe with
  | none => exact ⟨d1, none, rfl⟩
  | some e =>
    rcases hhe : handleErrors d1 e with ⟨d2, out⟩
    refine ⟨d2, out, ?_⟩
    dsimp only
    rw [hhe]

/-! Section: concrete fixtures used by witnesses and counterexamples. -/

/-- A Docker client oracle for which every call succeeds: the exec
session exits with code 0 and the env dump is copied out. -/
def cliOk : DockerCli where
  imagePull := fun _ => none
  containerInspect := fun _ => .notFound
  containerRestart := fun _ _ => none
  containerCreate := .ok "fresh-1"
  containerStart := fun _ => none
  copyToContainer := none
  execCreate := .ok "exec-1"
  execAttach := none
  execInspectPid := .ok 42
  execWait := .ok 0
  copyFromContainer := fun _ => some [("FLOW_VVV", "flowci"), ("HOME", "/root")]

/-- As `cliOk`, but the wait on the exec session observes the job
context's cancellation. -/
def cliCancel : DockerCli :=
  { cliOk with execWait := .error .canceled }

/-- As `cliOk`, but the wait on the exec session observes the job
context's deadline. -/
def cliDeadline : DockerCli :=
  { cliOk with execWait := .error .deadlineExceeded }

/-- As `cliOk`, but inspecting any container fails with an unexpected
(non-not-found) error. -/
def cliBoom : DockerCli :=
  { cliOk with containerInspect := fun _ => .failed (.other "inspect boom") }

/-- As `cliOk`, but every container inspects as exited (so a resume
hint is taken) and the restart succeeds. -/
def cliResumeOk : DockerCli :=
  { cliOk with containerInspect := fun _ => .ok "exited" }

/-- As `cliResumeOk`, but the restart of the hinted container fails. -/
def cliResumeFail : DockerCli :=
  { cliOk with
      containerInspect := fun _ => .ok "exited"
      containerRestart := fun _ _ => some (.other "restart boom") }

/-- As `cliOk`, but copying the env dump out of the container fails. -/
def cliNoCopy : DockerCli :=
  { cliOk with copyFromContainer := fun _ => none }

/-- A plain input descriptor: no resume hint, delete-on-exit set. -/
def cmdPlain : CmdIn where
  id := "1-1-1"
  flowId := "flowid"
  containerId := ""
  envFilters := ["FLOW_"]
  docker := { image := "ubuntu:18.04", isDeleteContainer := true, isStopContainer := true }

/-- Initial executor state for `cmdPlain`. -/
def dPlain : DockerState := { inCmd := cmdPlain }

/-- Initial executor state with a resume hint `abc`. -/
def dResume : DockerState :=
  { inCmd := { cmdPlain with containerId := "abc" } }

/-- State whose cleanup policy is delete-on-exit, holding container c1. -/
def dDel : DockerState :=
  { inCmd := { cmdPlain with docker :=
      { image := "ubuntu:18.04", isDeleteContainer := true, isStopContainer := false } }
    containerId := "c1" }

/-- State whose cleanup policy is stop-on-exit only, holding container c2. -/
def dStop : DockerState :=
  { inCmd := { cmdPlain with docker :=
      { image := "ubuntu:18.04", isDeleteContainer := false, isStopContainer := true } }
    containerId := "c2" }

/-! Section: the claims. -/

/-- Claim C10: the three command-type constants CmdTypeShell,
CmdTypeKill and CmdTypeClose are all the same string "SHELL", so the
Type field of a CmdIn cannot distinguish shell, kill and close. -/
theorem C10_cmd_types :
    CmdTypeShell = "SHELL" ∧ CmdTypeKill = "SHELL" ∧ CmdTypeClose = "SHELL"
    ∧ CmdTypeShell = CmdTypeKill ∧ CmdTypeKill = CmdTypeClose :=
  ⟨rfl, rfl, rfl, rfl, rfl⟩

/-- Claim C6: pullImage resolves the full registry reference by
prepending docker.io/ when the image name contains a slash, and
docker.io/library/ otherwise. -/
theorem C6_pull_image_ref (image : String) :
    pullImageFullRef image =
      if image.contains '/' then "docker.io/" ++ image
      else "docker.io/library/" ++ image := rfl

/-- Claim C5: the code field of the terminal result is the
interpreter's exit status on a normal exit, -100 on timeout and -1 on
kill; the named constants CmdExitCodeTimeOut, CmdExitCodeKilled,
CmdExitCodeUnknow, CmdExitCodeSuccess are -100, -1, -1, 0. -/
theorem C5_exit_codes :
    CmdExitCodeTimeOut = -100 ∧ CmdExitCodeKilled = -1
    ∧ CmdExitCodeUnknow = -1 ∧ CmdExitCodeSuccess = 0
    ∧ (∀ r : ExecutedCmd, (toTimeOutStatus r).code = CmdExitCodeTimeOut)
    ∧ (∀ r : ExecutedCmd, (toKilledStatus r).code = CmdExitCodeKilled)
    ∧ (∀ (r : ExecutedCmd) (exitCode : Int),
        (toFinishStatus exitCode r).code = exitCode) := by
  refine ⟨rfl, rfl, rfl, rfl, fun r => rfl, fun r => rfl, fun r exitCode => ?_⟩
  unfold toFinishStatus
  split_ifs <;> rfl

/-- Claim C4: once the result already holds a terminal (finish) status,
the normal-exit transition at the end of Start's body is a no-op: the
first terminal signal wins and the later exit code does not overwrite
the recorded one. -/
theorem C4_first_terminal_wins (r : ExecutedCmd) (exitCode : Int)
    (h : IsFinishStatus r = true) :
    finishTransition exitCode r = r
    ∧ (finishTransition exitCode r).code = r.code := by
  unfold finishTransition
  rw [if_pos h]
  exact ⟨rfl, rfl⟩

/-- Witness for C4 at a killed result and a later exit code 0. -/
theorem C4_first_terminal_wins_witness :
    IsFinishStatus { status := CmdStatus.killed, code := -1 : ExecutedCmd } = true
    ∧ finishTransition 0 { status := CmdStatus.killed, code := -1 : ExecutedCmd }
      = { status := CmdStatus.killed, code := -1 : ExecutedCmd } :=
  ⟨by decide,
    (C4_first_terminal_wins { status := CmdStatus.killed, code := -1 } 0 (by decide)).1⟩

/-- Claim C7 counterexample: in container mode with flow id "flowid",
the injected AGENT_JOB_DIR is "/ws/flowid", not the container workspace
path "/ws" claimed. -/
theorem C7_counterexample :
    lookupVar (initConfig dPlain).vars VarAgentJobDir = some "/ws/flowid"
    ∧ lookupVar (initConfig dPlain).vars VarAgentJobDir ≠ some dockerWorkspace := by
  refine ⟨by decide, by decide⟩

/-- Claim C7 as amended: the AGENT_JOB_DIR variable injected into the
child equals the container workspace path joined with the parsed flow
id (so it equals "/ws" only when the flow id is empty). -/
theorem C7_amended (d : DockerState) :
    lookupVar (initConfig d).vars VarAgentJobDir
      = some (filepathJoin dockerWorkspace (ParseString d.inCmd.flowId)) := by
  simp only [initConfig]
  rw [lookupVar_setVar_other _ _ _ _ (by decide), lookupVar_setVar_self]

/-- Claim C1: container-mode error mapping of Start. Cancellation
records Killed, resets the runtime context to background and Start
returns no error; deadline exceeded records Timeout with the same
reset and no error; any other runtime error records Exception with the
error's message in the error field and is the engine-level error that
handleErrors hands back to Start's caller. -/
theorem C1_error_mapping (cli : DockerCli) (d : DockerState) (m : String) :
    handleErrors d GoErr.canceled
      = ({ d with CmdResult := toKilledStatus d.CmdResult, ctx := Ctx.background }, none)
    ∧ handleErrors d GoErr.deadlineExceeded
      = ({ d with CmdResult := toTimeOutStatus d.CmdResult, ctx := Ctx.background }, none)
    ∧ (handleErrors d (GoErr.other m)).1.CmdResult.status = CmdStatus.exception
    ∧ (handleErrors d (GoErr.other m)).1.CmdResult.error = m
    ∧ (handleErrors d (GoErr.other m)).2 = some (GoErr.other m)
    ∧ ((startBody cli d).2 = some GoErr.canceled →
        (Start cli d).2 = none
        ∧ (Start cli d).1.CmdResult.status = CmdStatus.killed
        ∧ (Start cli d).1.ctx = Ctx.background)
    ∧ ((startBody cli d).2 = some GoErr.deadlineExceeded →
        (Start cli d).2 = none
        ∧ (Start cli d).1.CmdResult.status = CmdStatus.timeout
        ∧ (Start cli d).1.ctx = Ctx.background) := by
  refine ⟨rfl, rfl, rfl, rfl, rfl, ?_, ?_⟩
  all_goals
    intro h
    rcases hsb : startBody cli d with ⟨d1, pe⟩
    rw [hsb] at h
    simp only at h
    subst h
    unfold Start
    rw [hsb]
    dsimp only
    rw [closeChannels_CmdResult, cleanupContainer_CmdResult,
      closeChannels_ctx, cleanupContainer_ctx]
    exact ⟨rfl, rfl, rfl⟩

/-- Witness for C1: a run whose exec wait observes cancellation ends
with status Killed, a background context and no error from Start. -/
theorem C1_error_mapping_witness :
    (Start cliCancel dPlain).2 = none
    ∧ (Start cliCancel dPlain).1.CmdResult.status = CmdStatus.killed
    ∧ (Start cliCancel dPlain).1.ctx = Ctx.background :=
  (C1_error_mapping cliCancel dPlain "").2.2.2.2.2.1 (by decide)

/-- Claim C3 counterexample: with a resume hint "abc" and a client
whose inspection fails with an unexpected (non-not-found) error, the
executor does not proceed to fresh creation: tryToResume panics with
that error, and the whole job fails as Exception with the error
returned from Start. -/
theorem C3_counterexample :
    (tryToResume cliBoom dResume).2 = Except.error (GoErr.other "inspect boom")
    ∧ (Start cliBoom dResume).1.CmdResult.status = CmdStatus.exception
    ∧ (Start cliBoom dResume).1.CmdResult.error = "inspect boom"
    ∧ (Start cliBoom dResume).2 = some (GoErr.other "inspect boom") := by
  refine ⟨rfl, by decide, by decide, by decide⟩

/-- Claim C3 as amended: for a non-empty resume hint, only a
container-not-found inspection error makes the resume fail quietly and
fall through to fresh creation; any other inspection error propagates
as a runtime error (panic), failing the job. -/
theorem C3_amended (cli : DockerCli) (d : DockerState)
    (hne : IsEmptyString d.inCmd.containerId = false) :
    (cli.containerInspect d.inCmd.containerId = InspectOutcome.notFound →
      tryToResume cli d = (d, Except.ok false))
    ∧ (∀ e, cli.containerInspect d.inCmd.containerId = InspectOutcome.failed e →
      (tryToResume cli d).2 = Except.error e) := by
  constructor
  · intro hins
    unfold tryToResume
    simp [hne, hins]
  · intro e hins
    unfold tryToResume
    simp [hne, hins]

/-- Witness for C3's amended claim at concrete clients: a not-found
inspection falls through to fresh creation; a failing inspection
propagates the error. -/
theorem C3_amended_witness :
    tryToResume cliOk dResume = (dResume, Except.ok false)
    ∧ (tryToResume cliBoom dResume).2 = Except.error (GoErr.other "inspect boom") :=
  ⟨(C3_amended cliOk dResume (by decide)).1 (by decide),
    (C3_amended cliBoom dResume (by decide)).2 (GoErr.other "inspect boom") (by decide)⟩

/-- Claim C2: the executor reuses the supplied containerId only when
it is non-empty, the container exists and its status is exactly
"exited"; then it restarts it with a 5-second timeout and on success
the result's containerId equals the supplied id; if the restart fails
the stale container is force-removed and the id of a freshly created
container is recorded instead. -/
theorem C2_resume_semantics (cli : DockerCli) (d d' : DockerState) :
    (tryToResume cli d = (d', Except.ok true) →
      d.inCmd.containerId ≠ ""
      ∧ cli.containerInspect d.inCmd.containerId = InspectOutcome.ok "exited"
      ∧ cli.containerRestart d.inCmd.containerId 5 = none
      ∧ d'.CmdResult.containerId = d.inCmd.containerId
      ∧ d'.containerId = d.inCmd.containerId)
    ∧ (∀ e newId,
        IsEmptyString d.inCmd.containerId = false →
        cli.containerInspect d.inCmd.containerId = InspectOutcome.ok "exited" →
        cli.containerRestart d.inCmd.containerId 5 = some e →
        cli.containerCreate = Except.ok newId →
        (tryToResume cli d).2 = Except.ok false
        ∧ d.inCmd.containerId ∈ (tryToResume cli d).1.removed
        ∧ (startContainer cli d).1.CmdResult.containerId = newId
        ∧ (startContainer cli d).1.containerId = newId) := by
  constructor
  · intro h
    by_cases h0 : IsEmptyString d.inCmd.containerId = true
    · have hval : tryToResume cli d = (d, Except.ok false) := by
        unfold tryToResume
        simp [h0]
      rw [hval] at h
      exact absurd (congrArg Prod.snd h) (by simp)
    · have hne : d.inCmd.containerId ≠ "" := by
        simpa [IsEmptyString] using h0
      rcases hins : cli.containerInspect d.inCmd.containerId with _ | e | st
      · have hval : tryToResume cli d = (d, Except.ok false) := by
          unfold tryToResume
          simp [h0, hins]
        rw [hval] at h
        exact absurd (congrArg Prod.snd h) (by simp)
      · have hval : (tryToResume cli d).2 = Except.error e := by
          unfold tryToResume
          simp [h0, hins]
        rw [h] at hval
        simp at hval
      · by_cases hst : st = "exited"
        · subst hst
          rcases hres : cli.containerRestart d.inCmd.containerId 5 with _ | e2
          · have hval : tryToResume cli d
                = ({ d with
                      containerId := d.inCmd.containerId,
                      CmdResult := { d.CmdResult with containerId := d.inCmd.containerId } },
                    Except.ok true) := by
              unfold tryToResume
              simp [h0, hins, hres]
            rw [hval] at h
            have hd' := congrArg Prod.fst h
            dsimp only at hd'
            refine ⟨hne, rfl, rfl, ?_, ?_⟩ <;> rw [← hd']
          · have hval : (tryToResume cli d).2 = Except.ok false := by
              unfold tryToResume
              simp [h0, hins, hres]
            rw [h] at hval
            simp at hval
        · have hval : (tryToResume cli d).2 = Except.ok false := by
            unfold tryToResume
            simp [h0, hins, hst]
          rw [h] at hval
          simp at hval
  · intro e newId h0 hins hres hcreate
    have hresume : tryToResume cli d
        = ({ d with removed := d.inCmd.containerId :: d.removed },
            Except.ok false) := by
      unfold tryToResume
      simp [h0, hins, hres]
    refine ⟨by rw [hresume], by rw [hresume]; exact List.mem_cons_self _ _, ?_, ?_⟩
    all_goals
      unfold startContainer
      rw [hresume, hcreate]
      dsimp only
      cases cli.containerStart newId <;> rfl

/-- Witness for C2 at concrete clients: a successful restart adopts
the hinted id into the result; a failed restart removes the stale
container and the fresh container's id is recorded. -/
theorem C2_resume_semantics_witness :
    (tryToResume cliResumeOk dResume).1.CmdResult.containerId = "abc"
    ∧ (tryToResume cliResumeFail dResume).2 = Except.ok false
    ∧ "abc" ∈ (tryToResume cliResumeFail dResume).1.removed
    ∧ (startContainer cliResumeFail dResume).1.CmdResult.containerId = "fresh-1" := by
  have h1 := (C2_resume_semantics cliResumeOk dResume
      (tryToResume cliResumeOk dResume).1).1 rfl
  have h2 := (C2_resume_semantics cliResumeFail dResume dResume).2
      (GoErr.other "restart boom") "fresh-1" (by decide) (by decide) (by decide) rfl
  exact ⟨h1.2.2.2.1, h2.1, h2.2.1, h2.2.2.1⟩

/-- Claim C8: after the run, deleteOnExit force-removes the container
and takes precedence over stopOnExit; otherwise stopOnExit stops it;
and the deferred cleanup (followed by the channel close) runs on every
exit path of Start. -/
theorem C8_cleanup_policy (cli : DockerCli) (d : DockerState) :
    (Start cli d).1.cleanupRan = true
    ∧ (Start cli d).1.channelsClosed = true
    ∧ (d.inCmd.docker.isDeleteContainer = true →
        (cleanupContainer d).removed = d.containerId :: d.removed
        ∧ (cleanupContainer d).stopped = d.stopped)
    ∧ (d.inCmd.docker.isDeleteContainer = false →
        d.inCmd.docker.isStopContainer = true →
        (cleanupContainer d).stopped = d.containerId :: d.stopped
        ∧ (cleanupContainer d).removed = d.removed) := by
  obtain ⟨d2, out, hS⟩ := Start_shape cli d
  refine ⟨?_, ?_, ?_, ?_⟩
  · rw [hS]
    show (cleanupContainer d2).cleanupRan = true
    exact cleanupContainer_ran d2
  · rw [hS]
    rfl
  · intro hdel
    unfold cleanupContainer
    dsimp only
    rw [if_pos hdel]
    exact ⟨rfl, rfl⟩
  · intro hdel hstop
    unfold cleanupContainer
    dsimp only
    rw [if_neg (by simp [hdel]), if_pos hstop]
    exact ⟨rfl, rfl⟩

/-- Witness for C8 at concrete states: delete-on-exit removes and does
not stop; stop-on-exit (without delete) stops and does not remove, and
a full run marks the cleanup as executed. -/
theorem C8_cleanup_policy_witness :
    (Start cliOk dPlain).1.cleanupRan = true
    ∧ (cleanupContainer dDel).removed = ["c1"]
    ∧ (cleanupContainer dDel).stopped = []
    ∧ (cleanupContainer dStop).stopped = ["c2"]
    ∧ (cleanupContainer dStop).removed = [] := by
  refine ⟨(C8_cleanup_policy cliOk dPlain).1, ?_, ?_, ?_, ?_⟩
  · exact ((C8_cleanup_policy cliOk dDel).2.2.1 (by decide)).1
  · exact ((C8_cleanup_policy cliOk dDel).2.2.1 (by decide)).2
  · exact ((C8_cleanup_policy cliOk dStop).2.2.2 (by decide) (by decide)).1
  · exact ((C8_cleanup_policy cliOk dStop).2.2.2 (by decide) (by decide)).2

/-- Claim C9: if copying the env-dump file out of the container fails,
exportEnv returns silently without recording any error — the state is
unchanged, so the Output mapping stays unset — and a full run with a
failing copy still finishes with status Success, no error from Start
and an unset output mapping. -/
theorem C9_export_env_silent :
    (∀ (cli : DockerCli) (d : DockerState),
      cli.copyFromContainer d.containerId = none → exportEnv cli d = d)
    ∧ (Start cliNoCopy dPlain).1.CmdResult.status = CmdStatus.success
    ∧ (Start cliNoCopy dPlain).1.CmdResult.output = none
    ∧ (Start cliNoCopy dPlain).2 = none := by
  refine ⟨?_, by decide, by decide, by decide⟩
  intro cli d h
  unfold exportEnv
  rw [h]

/-- Witness for C9: a concrete client whose copy fails leaves the
state untouched. -/
theorem C9_export_env_silent_witness :
    exportEnv cliNoCopy dPlain = dPlain :=
  C9_export_env_silent.1 cliNoCopy dPlain rfl

end FlowAgentX
